import Mathlib

/-!
# Verification of the financial-expert PDF extraction core

A shallow embedding, in Lean 4, of the data model and operations of the
`financial-expert` repository that the specification's claims concern:

* `core/llm_qwen.py` — the AI/regex reconciler (`_to_float`,
  `_should_override`, `merge_ai_extracted_data`);
* `core/pdf_analyzer.py` — reporting-period candidate collection
  (`_add_date`, the `max` selection) and `compute_metrics_from_extracted`;
* `core/pdf_text.py` — `_is_garbled_text` and the missing-path behaviour of
  `extract_pdf_text`;
* `api.py` — the `_is_reasonable` plausibility filter and the
  `metrics_to_save` persistence set;
* the forced / best-effort AI-enhancement control flow of
  `extract_financials_from_pdf`.

Python floats are modelled as exact rationals (`ℚ`); `None` as `Option.none`.
Non-finite floats (inf/nan) are outside the model: the string parser returns
`none` for them, matching the fact that no claim exercises them.
-/

namespace FinExpert

/-- A Python runtime value as it can appear in an AI-extracted JSON dict or in
a field of the `ExtractedFinancials` dataclass: `None`, an int, a float
(modelled as `ℚ`), or a string. -/
inductive PyVal where
  | none : PyVal
  | int : Int → PyVal
  | float : ℚ → PyVal
  | str : String → PyVal
  deriving DecidableEq, Repr

/-- ASCII decimal digit, by code point (48–57). -/
def isDigitChar (c : Char) : Bool := 48 ≤ c.toNat && c.toNat ≤ 57

/-- Characters Python's `str.strip()` removes (ASCII whitespace: space, tab,
LF, VT, FF, CR). -/
def isSpacePy (c : Char) : Bool :=
  c.toNat = 32 || (9 ≤ c.toNat && c.toNat ≤ 13)

/-- Python `str.strip()`: drop leading and trailing whitespace. -/
def pyStrip (cs : List Char) : List Char :=
  ((cs.dropWhile isSpacePy).reverse.dropWhile isSpacePy).reverse

/-- Value of a digit string read in base 10. -/
def digitsToNat (ds : List Char) : Nat :=
  ds.foldl (fun n c => n * 10 + (c.toNat - 48)) 0

/-- Exponent part of a Python float literal: after `e`/`E`, an optional sign
and a non-empty digit run consuming the rest of the input. -/
def parseFloatExp (mant : ℚ) (cs : List Char) : Option ℚ :=
  let eneg := cs.head? = Option.some '-'
  let cs1 := if eneg ∨ cs.head? = Option.some '+' then cs.tail else cs
  let expP := cs1.takeWhile isDigitChar
  let rest := cs1.dropWhile isDigitChar
  if expP.isEmpty then Option.none
  else if rest.isEmpty then
    Option.some (if eneg then mant / (10 : ℚ) ^ digitsToNat expP
                 else mant * (10 : ℚ) ^ digitsToNat expP)
  else Option.none

/-- Python `float(s)` on an already-stripped string: optional sign, digit run,
optional `.` and fractional digit run (at least one digit overall), optional
exponent; the whole input must be consumed. Non-finite literals (`inf`,
`nan`, …) are not representable in `ℚ` and yield `none`. -/
def parseFloatPy (cs : List Char) : Option ℚ :=
  let neg := cs.head? = Option.some '-'
  let cs1 := if neg ∨ cs.head? = Option.some '+' then cs.tail else cs
  let sign : ℚ := if neg then -1 else 1
  let intP := cs1.takeWhile isDigitChar
  let cs2 := cs1.dropWhile isDigitChar
  let hasDot := cs2.head? = Option.some '.'
  let fracP := if hasDot then cs2.tail.takeWhile isDigitChar else []
  let cs3 := if hasDot then cs2.tail.dropWhile isDigitChar else cs2
  if intP.isEmpty ∧ fracP.isEmpty then Option.none
  else
    let mant : ℚ :=
      sign * ((digitsToNat intP : ℚ) + (digitsToNat fracP : ℚ) / (10 : ℚ) ^ fracP.length)
    if cs3.isEmpty then Option.some mant
    else if cs3.head? = Option.some 'e' ∨ cs3.head? = Option.some 'E' then
      parseFloatExp mant cs3.tail
    else Option.none

/-- `_to_float` (`core/llm_qwen.py`): `None` stays `None`; ints and floats are
taken as floats; a string is stripped, the sentinel strings `""`, `"null"`,
`"None"`, `"nan"`, `"NaN"`, `"--"` become `None`, anything else goes through
`float(...)`, with a failed conversion caught and turned into `None`. -/
def toFloat (v : PyVal) : Option ℚ :=
  match v with
  | .none => Option.none
  | .int n => Option.some (n : ℚ)
  | .float q => Option.some q
  | .str s =>
    let sv := pyStrip s.toList
    if sv = "".toList ∨ sv = "null".toList ∨ sv = "None".toList ∨
       sv = "nan".toList ∨ sv = "NaN".toList ∨ sv = "--".toList then
      Option.none
    else
      parseFloatPy sv

/-- `_should_override` (`core/llm_qwen.py`): no AI value → keep; missing or
exactly-zero base → take AI; percentage field → take AI only when the base is
outside [0, 100] and the AI value inside; amount field → take AI only when
the magnitude ratio `abs(ai / cur)` is ≥ 10 or ≤ 0.1. -/
def shouldOverride (cur ai : Option ℚ) (isPct : Bool) : Bool :=
  match ai with
  | Option.none => false
  | Option.some a =>
    match cur with
    | Option.none => true
    | Option.some c =>
      if c = 0 then true
      else if isPct then
        decide (¬(0 ≤ c ∧ c ≤ 100) ∧ (0 ≤ a ∧ a ≤ 100))
      else if c ≠ 0 ∧ a ≠ 0 then
        decide (10 ≤ |a / c| ∨ |a / c| ≤ 1 / 10)
      else false

/-- The `ExtractedFinancials` dataclass (`core/pdf_analyzer.py`) with fields
at their Python runtime type: any field can hold `None`, a number, or (for
the period fields) a string, so every field is a `PyVal` (default `None`). -/
structure PyEF where
  report_period : PyVal := .none
  report_year : PyVal := .none
  revenue : PyVal := .none
  cost : PyVal := .none
  gross_profit : PyVal := .none
  net_profit : PyVal := .none
  total_assets : PyVal := .none
  total_liabilities : PyVal := .none
  total_equity : PyVal := .none
  current_assets : PyVal := .none
  current_liabilities : PyVal := .none
  cash : PyVal := .none
  inventory : PyVal := .none
  receivables : PyVal := .none
  fixed_assets : PyVal := .none
  gross_margin_direct : PyVal := .none
  net_margin_direct : PyVal := .none
  roe_direct : PyVal := .none
  roa_direct : PyVal := .none
  current_ratio_direct : PyVal := .none
  debt_ratio_direct : PyVal := .none
  deriving DecidableEq, Repr

/-- An AI-extracted JSON dict: an association list of key/value pairs
(Python dicts have unique keys; lookup takes the first match). -/
abbrev AiDict := List (String × PyVal)

/-- `ai_data.get(key)`: first value bound to `key`, else Python `None`. -/
def aiGet (d : AiDict) (k : String) : PyVal :=
  match d.find? (fun p => p.1 = k) with
  | Option.some p => p.2
  | Option.none => .none

/-- One iteration of the `merge_ai_extracted_data` loop for a single mapped
field: coerce the AI value with `_to_float`; when `_should_override` fires,
`setattr` stores the coerced float, otherwise the field is untouched. -/
def mergeField (cur ai : PyVal) (isPct : Bool) : PyVal :=
  match toFloat ai with
  | Option.none => cur
  | Option.some a =>
    if shouldOverride (toFloat cur) (Option.some a) isPct then .float a else cur

/-- `merge_ai_extracted_data` (`core/llm_qwen.py`): for each entry of
`field_map`, decide the override on the `_to_float` images of the AI dict
value and the current attribute, writing the coerced AI float on override.
The percentage fields are exactly `{gross_margin, net_margin, roe, roa,
debt_ratio}`. Fields outside `field_map` are never written. -/
def merge_ai_extracted_data (e : PyEF) (d : AiDict) : PyEF :=
  { e with
    report_period := mergeField e.report_period (aiGet d "report_period") false
    report_year := mergeField e.report_year (aiGet d "report_year") false
    revenue := mergeField e.revenue (aiGet d "revenue") false
    net_profit := mergeField e.net_profit (aiGet d "net_profit") false
    total_assets := mergeField e.total_assets (aiGet d "total_assets") false
    total_liabilities := mergeField e.total_liabilities (aiGet d "total_liabilities") false
    total_equity := mergeField e.total_equity (aiGet d "total_equity") false
    gross_profit := mergeField e.gross_profit (aiGet d "gross_profit") false
    current_assets := mergeField e.current_assets (aiGet d "current_assets") false
    current_liabilities := mergeField e.current_liabilities (aiGet d "current_liabilities") false
    gross_margin_direct := mergeField e.gross_margin_direct (aiGet d "gross_margin") true
    net_margin_direct := mergeField e.net_margin_direct (aiGet d "net_margin") true
    roe_direct := mergeField e.roe_direct (aiGet d "roe") true
    roa_direct := mergeField e.roa_direct (aiGet d "roa") true
    current_ratio_direct := mergeField e.current_ratio_direct (aiGet d "current_ratio") false
    debt_ratio_direct := mergeField e.debt_ratio_direct (aiGet d "debt_ratio") true }

/-! ## Metric computation (`compute_metrics_from_extracted`) -/

/-- The numeric view of `ExtractedFinancials` consumed by
`compute_metrics_from_extracted`: each numeric field is a float or `None`. -/
structure EF where
  revenue : Option ℚ := Option.none
  cost : Option ℚ := Option.none
  gross_profit : Option ℚ := Option.none
  net_profit : Option ℚ := Option.none
  total_assets : Option ℚ := Option.none
  total_liabilities : Option ℚ := Option.none
  total_equity : Option ℚ := Option.none
  current_assets : Option ℚ := Option.none
  current_liabilities : Option ℚ := Option.none
  cash : Option ℚ := Option.none
  inventory : Option ℚ := Option.none
  receivables : Option ℚ := Option.none
  fixed_assets : Option ℚ := Option.none
  gross_margin_direct : Option ℚ := Option.none
  net_margin_direct : Option ℚ := Option.none
  roe_direct : Option ℚ := Option.none
  roa_direct : Option ℚ := Option.none
  current_ratio_direct : Option ℚ := Option.none
  debt_ratio_direct : Option ℚ := Option.none
  deriving DecidableEq, Repr

/-- Python truthiness of an optional float: `None` and `0.0` are falsy. -/
def truthy (x : Option ℚ) : Bool :=
  match x with
  | Option.none => false
  | Option.some q => decide (q ≠ 0)

/-- The numeric value of a field, only ever read under a `truthy` guard. -/
def val (x : Option ℚ) : ℚ := x.getD 0

/-- `GROSS_MARGIN`: prefer the direct value; else `gross_profit/revenue*100`
when `revenue` and `gross_profit` are truthy and `revenue > 0`; else
`(revenue-cost)/revenue*100` under the analogous guard; else absent. -/
def computeGrossMargin (d : EF) : Option ℚ :=
  if truthy d.gross_margin_direct then d.gross_margin_direct
  else if truthy d.revenue && truthy d.gross_profit && decide (0 < val d.revenue) then
    Option.some (val d.gross_profit / val d.revenue * 100)
  else if truthy d.revenue && truthy d.cost && decide (0 < val d.revenue) then
    Option.some ((val d.revenue - val d.cost) / val d.revenue * 100)
  else Option.none

/-- `NET_MARGIN`: direct value, else `net_profit/revenue*100`. -/
def computeNetMargin (d : EF) : Option ℚ :=
  if truthy d.net_margin_direct then d.net_margin_direct
  else if truthy d.revenue && truthy d.net_profit && decide (0 < val d.revenue) then
    Option.some (val d.net_profit / val d.revenue * 100)
  else Option.none

/-- `ROE`: direct value, else `net_profit/total_equity*100`. -/
def computeRoe (d : EF) : Option ℚ :=
  if truthy d.roe_direct then d.roe_direct
  else if truthy d.total_equity && truthy d.net_profit && decide (0 < val d.total_equity) then
    Option.some (val d.net_profit / val d.total_equity * 100)
  else Option.none

/-- `ROA`: direct value, else `net_profit/total_assets*100`. -/
def computeRoa (d : EF) : Option ℚ :=
  if truthy d.roa_direct then d.roa_direct
  else if truthy d.total_assets && truthy d.net_profit && decide (0 < val d.total_assets) then
    Option.some (val d.net_profit / val d.total_assets * 100)
  else Option.none

/-- `DEBT_ASSET`: direct value, else `total_liabilities/total_assets*100`. -/
def computeDebtAsset (d : EF) : Option ℚ :=
  if truthy d.debt_ratio_direct then d.debt_ratio_direct
  else if truthy d.total_assets && truthy d.total_liabilities && decide (0 < val d.total_assets) then
    Option.some (val d.total_liabilities / val d.total_assets * 100)
  else Option.none

/-- `CURRENT_RATIO`: direct value, else `current_assets/current_liabilities`. -/
def computeCurrentRatio (d : EF) : Option ℚ :=
  if truthy d.current_ratio_direct then d.current_ratio_direct
  else if truthy d.current_assets && truthy d.current_liabilities &&
          decide (0 < val d.current_liabilities) then
    Option.some (val d.current_assets / val d.current_liabilities)
  else Option.none

/-- `QUICK_RATIO`: `(current_assets - (inventory or 0))/current_liabilities`
when `current_assets` and `current_liabilities` are truthy and
`current_liabilities > 0`; `inventory or 0` is Python truthiness choice. -/
def computeQuickRatio (d : EF) : Option ℚ :=
  if truthy d.current_assets && truthy d.current_liabilities &&
     decide (0 < val d.current_liabilities) then
    Option.some
      ((val d.current_assets - (if truthy d.inventory then val d.inventory else 0)) /
        val d.current_liabilities)
  else Option.none

/-- `EQUITY_RATIO`: `total_liabilities/total_equity` under its guards. -/
def computeEquityRatio (d : EF) : Option ℚ :=
  if truthy d.total_liabilities && truthy d.total_equity && decide (0 < val d.total_equity) then
    Option.some (val d.total_liabilities / val d.total_equity)
  else Option.none

/-- `INVENTORY_TURNOVER`: `cost/inventory` under its guards. -/
def computeInventoryTurnover (d : EF) : Option ℚ :=
  if truthy d.cost && truthy d.inventory && decide (0 < val d.inventory) then
    Option.some (val d.cost / val d.inventory)
  else Option.none

/-- `RECEIVABLE_TURNOVER`: `revenue/receivables` under its guards. -/
def computeReceivableTurnover (d : EF) : Option ℚ :=
  if truthy d.revenue && truthy d.receivables && decide (0 < val d.receivables) then
    Option.some (val d.revenue / val d.receivables)
  else Option.none

/-- `ASSET_TURNOVER`: `revenue/total_assets` under its guards. -/
def computeAssetTurnover (d : EF) : Option ℚ :=
  if truthy d.revenue && truthy d.total_assets && decide (0 < val d.total_assets) then
    Option.some (val d.revenue / val d.total_assets)
  else Option.none

/-- `compute_metrics_from_extracted` (`core/pdf_analyzer.py`), viewed as the
returned dict: a total map from metric code to the computed value, where an
absent dict key is `none`. Each key's value is set by an independent
`if/elif` block of the source. The function is total (never raises) and
every value it produces is a finite rational. -/
def compute_metrics_from_extracted (d : EF) (code : String) : Option ℚ :=
  if code = "GROSS_MARGIN" then computeGrossMargin d
  else if code = "NET_MARGIN" then computeNetMargin d
  else if code = "ROE" then computeRoe d
  else if code = "ROA" then computeRoa d
  else if code = "DEBT_ASSET" then computeDebtAsset d
  else if code = "CURRENT_RATIO" then computeCurrentRatio d
  else if code = "QUICK_RATIO" then computeQuickRatio d
  else if code = "EQUITY_RATIO" then computeEquityRatio d
  else if code = "INVENTORY_TURNOVER" then computeInventoryTurnover d
  else if code = "RECEIVABLE_TURNOVER" then computeReceivableTurnover d
  else if code = "ASSET_TURNOVER" then computeAssetTurnover d
  else Option.none

/-! ## Reporting-period candidates (`_add_date` and the `max` selection) -/

/-- A date candidate `(year, month, day)` as appended by `_add_date`. -/
abbrev DateT := Nat × Nat × Nat

/-- `_add_date` (`core/pdf_analyzer.py`): append the candidate unless
`yi <= 1900 or mi <= 0 or mi > 12 or di <= 0 or di > 31`. -/
def addDate (acc : List DateT) (y m d : Nat) : List DateT :=
  if y ≤ 1900 ∨ m ≤ 0 ∨ 12 < m ∨ d ≤ 0 ∨ 31 < d then acc
  else acc ++ [(y, m, d)]

/-- Python's `<` on `(y, m, d)` tuples: lexicographic. -/
def dateLt (a b : DateT) : Bool :=
  a.1 < b.1 || (a.1 = b.1 && (a.2.1 < b.2.1 || (a.2.1 = b.2.1 && a.2.2 < b.2.2)))

/-- One step of Python `max` over tuples: keep the current maximum unless the
next element is strictly greater. -/
def dateMax (a b : DateT) : DateT := if dateLt a b then b else a

/-- `if date_candidates: yy, mm, dd = max(date_candidates)` — the selected
reporting period, `none` when no valid candidate was collected. -/
def selectReportPeriod (cands : List DateT) : Option DateT :=
  match cands with
  | [] => Option.none
  | c :: rest => Option.some (rest.foldl dateMax c)

/-- Zero-pad a number to two digits, as `f"{mm:02d}"` does for 0 ≤ mm < 100. -/
def pad2 (n : Nat) : String := if n < 10 then "0" ++ toString n else toString n

/-- `f"{yy:04d}-{mm:02d}-{dd:02d}"` for the years (> 1900) this code meets. -/
def formatDate (c : DateT) : String :=
  toString c.1 ++ "-" ++ pad2 c.2.1 ++ "-" ++ pad2 c.2.2

/-! ## Garbled-text detection (`_is_garbled_text`) -/

/-- Non-overlapping substring occurrence count, scanning left to right, as
Python `str.count` does (for a nonempty pattern): after a match the scan
resumes past the matched occurrence, realised structurally by a skip
counter (`k` positions still to pass over without testing). -/
def countSubstrAux (pat : List Char) : List Char → Nat → Nat
  | [], _ => 0
  | _ :: rest, k + 1 => countSubstrAux pat rest k
  | c :: rest, 0 =>
    if pat.isPrefixOf (c :: rest) then
      countSubstrAux pat rest (pat.length - 1) + 1
    else
      countSubstrAux pat rest 0

/-- `text.count(pat)`; Python counts `len(text)+1` for the empty pattern. -/
def countSubstr (pat s : List Char) : Nat :=
  if pat = [] then s.length + 1 else countSubstrAux pat s 0

/-- The CID-escape marker `"(cid:"`. -/
def cidMarker : List Char := ['(', 'c', 'i', 'd', ':']

/-- The `_is_cjk` helper: CJK ideograph code-point ranges. -/
def isCjk (c : Char) : Bool :=
  let o := c.toNat
  (0x4E00 ≤ o && o ≤ 0x9FFF) || (0x3400 ≤ o && o ≤ 0x4DBF) ||
  (0x20000 ≤ o && o ≤ 0x2A6DF) || (0x2A700 ≤ o && o ≤ 0x2B73F) ||
  (0x2B740 ≤ o && o ≤ 0x2B81F) || (0x2B820 ≤ o && o ≤ 0x2CEAF) ||
  (0xF900 ≤ o && o ≤ 0xFAFF)

/-- The literal punctuation set of `_is_garbled_text`'s readable test. -/
def finPunct : List Char :=
  ['.', ',', ';', ':', '!', '?', '$', '%', '(', ')', '-',
   '，', '。', '；', '：', '！', '？', '（', '）', '【', '】', '《', '》', '、']

/-- A "readable" character: alphanumeric (`isalnum`, modelled on its ASCII
part; CJK letters are covered by the explicit `_is_cjk` disjunct), whitespace
(`isspace`, modelled on its ASCII part), a CJK ideograph, or one of the
listed punctuation marks. -/
def isReadable (c : Char) : Bool :=
  c.isAlphanum || isSpacePy c || isCjk c || finPunct.contains c

/-- A control character counted by the density check: code point below 32 and
not `\n`, `\r`, `\t`. -/
def isCtrlChar (c : Char) : Bool :=
  c.toNat < 32 && !(c = '\n' || c = '\r' || c = '\t')

/-- `_is_garbled_text` (`core/pdf_text.py`): empty text is garbled; more than
10 `"(cid:"` markers is garbled; for texts longer than 100 chars a readable
ratio below 1/2 is garbled; for texts longer than 200 chars, more than 30
control characters in the first 5000 chars, or a control-character density
above 1%, is garbled; otherwise not garbled. -/
def isGarbledText (t : List Char) : Bool :=
  if t = [] then true
  else if 10 < countSubstr cidMarker t then true
  else if 100 < t.length ∧ ((t.filter isReadable).length : ℚ) / t.length < 1 / 2 then true
  else
    let sample := t.take 5000
    let ctrl := (sample.filter isCtrlChar).length
    if 200 < t.length ∧ 30 < ctrl then true
    else if 200 < t.length ∧ (ctrl : ℚ) / (max 1 sample.length : ℕ) > 1 / 100 then true
    else false

/-! ## `extract_pdf_text` missing-path behaviour -/

/-- The spec's error taxonomy for the page-text extractor. The code never
constructs `notFound`: it is declared so that the spec's claimed behaviour is
expressible. -/
inductive PdfError where
  | notFound : PdfError
  deriving DecidableEq, Repr

/-- The head of `extract_pdf_text` (`core/pdf_text.py`): `p = Path(path);
if not p.exists(): return ""`. `pathExists` abstracts `p.exists()` and
`body` abstracts the text the rest of the function would produce for an
existing file; `Except` models the Python exception surface (`.ok` = normal
return, `.error` = raise). -/
def extract_pdf_text (pathExists : Bool) (body : String) : Except PdfError String :=
  if pathExists then Except.ok body else Except.ok ""

/-! ## The persistence plausibility filter (`api.py`) -/

/-- `_is_pct_code` (`api.py`). -/
def isPctCode (code : String) : Bool :=
  code ∈ ["GROSS_MARGIN", "NET_MARGIN", "ROE", "ROA", "DEBT_ASSET"]

/-- `_is_reasonable` (`api.py`): `None` is rejected; otherwise the value is
checked against the per-code range (`float(v)` cannot fail on a float, so the
`except` branch is unreachable). -/
def is_reasonable (code : String) (v : Option ℚ) : Bool :=
  match v with
  | Option.none => false
  | Option.some fv =>
    if code ∈ ["GROSS_MARGIN", "NET_MARGIN"] then decide (-50 ≤ fv ∧ fv ≤ 100)
    else if code ∈ ["ROE", "ROA"] then decide (-200 ≤ fv ∧ fv ≤ 500)
    else if code ∈ ["DEBT_ASSET"] then decide (-50 ≤ fv ∧ fv ≤ 200)
    else if isPctCode code then decide (-200 ≤ fv ∧ fv ≤ 500)
    else if code ∈ ["CURRENT_RATIO", "QUICK_RATIO"] then decide (0 ≤ fv ∧ fv ≤ 50)
    else if code ∈ ["ASSET_TURNOVER", "INVENTORY_TURNOVER", "RECEIVABLE_TURNOVER"] then
      decide (0 ≤ fv ∧ fv ≤ 1000)
    else true

/-- `metric_meta` (`api.py`): the computed-metric codes with their display
names and units, in dict insertion order. -/
def metricMeta : List (String × String × String) :=
  [("GROSS_MARGIN", "毛利率", "%"),
   ("NET_MARGIN", "净利率", "%"),
   ("ROE", "ROE (净资产收益率)", "%"),
   ("ROA", "ROA (总资产收益率)", "%"),
   ("CURRENT_RATIO", "流动比率", ""),
   ("QUICK_RATIO", "速动比率", ""),
   ("DEBT_ASSET", "资产负债率", "%"),
   ("EQUITY_RATIO", "产权比率", ""),
   ("ASSET_TURNOVER", "总资产周转率", ""),
   ("INVENTORY_TURNOVER", "存货周转率", ""),
   ("RECEIVABLE_TURNOVER", "应收账款周转率", "")]

/-- The `metrics_to_save` loop (`api.py`): for each `metric_meta` entry, look
the code up in the computed dict and keep `(code, name, float(v), unit)` iff
`_is_reasonable(code, v)` (which is false for an absent value). -/
def metricsToSave (computed : String → Option ℚ) : List (String × String × ℚ × String) :=
  metricMeta.filterMap (fun m =>
    if is_reasonable m.1 (computed m.1) then
      Option.some (m.1, m.2.1, (computed m.1).getD 0, m.2.2)
    else Option.none)

/-! ## Forced / best-effort AI enhancement (`extract_financials_from_pdf`,
`extract_financials_with_ai`) -/

/-- Outcome of the network/parse part of `extract_financials_with_ai`,
abstracting the `httpx` call and JSON handling: an HTTP error status, a JSON
parse failure, any other exception, an empty completion text (the code
returns `{}` for it), or a parsed dict. -/
inductive AiCallOutcome where
  | httpError : Nat → AiCallOutcome
  | jsonParseError : AiCallOutcome
  | otherError : AiCallOutcome
  | emptyText : AiCallOutcome
  | response : AiDict → AiCallOutcome

/-- The errors `extract_financials_with_ai` can raise when `raise_on_error`
is set (`RuntimeError("missing_api_key")`, `qwen_http_*`,
`qwen_json_parse_error`, `qwen_exception`). -/
inductive AiError where
  | missingApiKey : AiError
  | http : Nat → AiError
  | jsonParse : AiError
  | other : AiError
  deriving DecidableEq, Repr

/-- Does the outcome correspond to a raised exception inside
`extract_financials_with_ai`'s `try` block? -/
def isFailureOutcome (o : AiCallOutcome) : Bool :=
  match o with
  | .httpError _ => true
  | .jsonParseError => true
  | .otherError => true
  | .emptyText => false
  | .response _ => false

/-- `extract_financials_with_ai` (`core/llm_qwen.py`): with no key, raise
`missing_api_key` when `raise_on_error` else return `{}`; an empty
completion returns `{}` unconditionally; a parsed dict is returned; each
caught exception raises its typed error when `raise_on_error` else returns
`{}`. -/
def extract_financials_with_ai (key : String) (outcome : AiCallOutcome)
    (raiseOnError : Bool) : Except AiError AiDict :=
  if key = "" then
    if raiseOnError then Except.error AiError.missingApiKey else Except.ok []
  else
    match outcome with
    | .response d => Except.ok d
    | .emptyText => Except.ok []
    | .httpError c => if raiseOnError then Except.error (AiError.http c) else Except.ok []
    | .jsonParseError => if raiseOnError then Except.error AiError.jsonParse else Except.ok []
    | .otherError => if raiseOnError then Except.error AiError.other else Except.ok []

/-- The pipeline-level errors of the AI-enhancement stage:
`RuntimeError("ai_required_no_api_key")` (the spec's missing-credential
failure), a propagated extractor error, and
`RuntimeError("ai_extraction_empty")` (the spec's extraction-failed case). -/
inductive PipelineError where
  | missingCredential : PipelineError
  | aiErr : AiError → PipelineError
  | extractionEmpty : PipelineError
  deriving DecidableEq, Repr

/-- The AI-enhancement tail of `extract_financials_from_pdf`
(`core/pdf_analyzer.py`), given the regex-stage result `base`. In forced
mode: no key raises `ai_required_no_api_key`; the extractor runs with
`raise_on_error=True` and its exceptions propagate; an empty dict raises
`ai_extraction_empty`; otherwise the merge result is returned. In
best-effort mode, `triggered` abstracts the
`extracted_count < 8 or key_missing >= 3` trigger: without a key the AI is
skipped; otherwise the extractor runs with `raise_on_error=False`, any
raised exception is caught and ignored (`except Exception: print`), and an
empty dict leaves `base` unmerged. -/
def aiEnhance (forceAi triggered : Bool) (key : String) (outcome : AiCallOutcome)
    (base : PyEF) : Except PipelineError PyEF :=
  if forceAi then
    if key = "" then Except.error PipelineError.missingCredential
    else
      match extract_financials_with_ai key outcome true with
      | Except.error e => Except.error (PipelineError.aiErr e)
      | Except.ok d =>
        if d.isEmpty then Except.error PipelineError.extractionEmpty
        else Except.ok (merge_ai_extracted_data base d)
  else
    if triggered then
      if key = "" then Except.ok base
      else
        match extract_financials_with_ai key outcome false with
        | Except.error _ => Except.ok base
        | Except.ok d =>
          if d.isEmpty then Except.ok base
          else Except.ok (merge_ai_extracted_data base d)
    else Except.ok base

/-! ## Theorems -/

/-! Dict-lookup lemmas for `compute_metrics_from_extracted`. -/

theorem cmfe_gross_margin (d : EF) :
    compute_metrics_from_extracted d "GROSS_MARGIN" = computeGrossMargin d := by
  simp [compute_metrics_from_extracted]

theorem cmfe_net_margin (d : EF) :
    compute_metrics_from_extracted d "NET_MARGIN" = computeNetMargin d := by
  simp [compute_metrics_from_extracted]

theorem cmfe_roe (d : EF) :
    compute_metrics_from_extracted d "ROE" = computeRoe d := by
  simp [compute_metrics_from_extracted]

theorem cmfe_roa (d : EF) :
    compute_metrics_from_extracted d "ROA" = computeRoa d := by
  simp [compute_metrics_from_extracted]

theorem cmfe_debt_asset (d : EF) :
    compute_metrics_from_extracted d "DEBT_ASSET" = computeDebtAsset d := by
  simp [compute_metrics_from_extracted]

theorem cmfe_current_ratio (d : EF) :
    compute_metrics_from_extracted d "CURRENT_RATIO" = computeCurrentRatio d := by
  simp [compute_metrics_from_extracted]

theorem cmfe_quick_ratio (d : EF) :
    compute_metrics_from_extracted d "QUICK_RATIO" = computeQuickRatio d := by
  simp [compute_metrics_from_extracted]

theorem cmfe_equity_ratio (d : EF) :
    compute_metrics_from_extracted d "EQUITY_RATIO" = computeEquityRatio d := by
  simp [compute_metrics_from_extracted]

theorem cmfe_inventory_turnover (d : EF) :
    compute_metrics_from_extracted d "INVENTORY_TURNOVER" = computeInventoryTurnover d := by
  simp [compute_metrics_from_extracted]

theorem cmfe_receivable_turnover (d : EF) :
    compute_metrics_from_extracted d "RECEIVABLE_TURNOVER" = computeReceivableTurnover d := by
  simp [compute_metrics_from_extracted]

theorem cmfe_asset_turnover (d : EF) :
    compute_metrics_from_extracted d "ASSET_TURNOVER" = computeAssetTurnover d := by
  simp [compute_metrics_from_extracted]

/-- C6 (counterexample): the claim says a nonexistent path makes page-text
extraction fail with `NotFoundError`; at the concrete nonexistent path the
code instead returns normally with the empty string and raises nothing. -/
theorem missing_path_counterexample :
    extract_pdf_text false "page text" = Except.ok "" ∧
    extract_pdf_text false "page text" ≠ Except.error PdfError.notFound :=
  ⟨rfl, by simp [extract_pdf_text]⟩

/-- C6 (amended): for every path that does not exist on the filesystem,
`extract_pdf_text` returns the empty string immediately — it does not raise
and attempts no fallback. -/
theorem missing_path_returns_empty :
    ∀ body : String, extract_pdf_text false body = Except.ok "" :=
  fun _ => rfl

/-- C2: for a percentage-typed field, the reconciler overrides the base value
with a present AI value iff the base is absent, exactly zero, or lies outside
[0, 100] while the AI value lies inside [0, 100]; in particular base 35 / AI
40 keeps 35 and base 350 / AI 40 takes 40 (shown on the `gross_margin`
percentage field through the full merge). -/
theorem reconciler_pct_override_spec :
    (∀ a : ℚ, shouldOverride Option.none (Option.some a) true = true) ∧
    (∀ c a : ℚ,
      shouldOverride (Option.some c) (Option.some a) true = true ↔
        (c = 0 ∨ (¬(0 ≤ c ∧ c ≤ 100) ∧ 0 ≤ a ∧ a ≤ 100))) ∧
    (merge_ai_extracted_data { gross_margin_direct := .float 35 }
        [("gross_margin", .float 40)]).gross_margin_direct = .float 35 ∧
    (merge_ai_extracted_data { gross_margin_direct := .float 350 }
        [("gross_margin", .float 40)]).gross_margin_direct = .float 40 := by
  refine ⟨fun a => rfl, fun c a => ?_, by decide, by decide⟩
  by_cases hc : c = 0
  · simp [shouldOverride, hc]
  · simp only [shouldOverride]
    rw [if_neg hc, if_pos (by simp), decide_eq_true_eq]
    constructor
    · rintro ⟨hcr, har⟩
      exact Or.inr ⟨hcr, har⟩
    · rintro (h | h)
      · exact absurd h hc
      · exact ⟨h.1, h.2⟩

/-- C2 (witness): the override rule applied at concrete inputs: an absent
base is always overridden, and base 350 with AI 40 triggers an override. -/
theorem reconciler_pct_override_spec_witness :
    shouldOverride Option.none (Option.some (40 : ℚ)) true = true ∧
    shouldOverride (Option.some (350 : ℚ)) (Option.some 40) true = true :=
  ⟨reconciler_pct_override_spec.1 40,
   (reconciler_pct_override_spec.2.1 350 40).mpr (by norm_num)⟩

/-- C3: for an amount-typed field with present non-zero base and AI values,
the reconciler overrides iff the magnitude ratio of AI to base is ≥ 10 or
≤ 0.1; in particular base 100 / AI 1050 is overridden to 1050 and base 100 /
AI 300 stays 100 (shown on the `revenue` amount field through the merge). -/
theorem reconciler_amount_override_spec :
    (∀ c a : ℚ, c ≠ 0 → a ≠ 0 →
      (shouldOverride (Option.some c) (Option.some a) false = true ↔
        (10 ≤ |a / c| ∨ |a / c| ≤ 1 / 10))) ∧
    (merge_ai_extracted_data { revenue := .float 100 }
        [("revenue", .float 1050)]).revenue = .float 1050 ∧
    (merge_ai_extracted_data { revenue := .float 100 }
        [("revenue", .float 300)]).revenue = .float 100 := by
  refine ⟨fun c a hc ha => ?_, ?_, ?_⟩
  · simp only [shouldOverride]
    rw [if_neg hc, if_neg (by simp), if_pos (And.intro hc ha), decide_eq_true_eq]
  · have hso : shouldOverride (Option.some 100) (Option.some 1050) false = true := by
      simp only [shouldOverride]
      rw [if_neg (by norm_num), if_pos (by norm_num : (100 : ℚ) ≠ 0 ∧ (1050 : ℚ) ≠ 0),
        if_neg (by simp), decide_eq_true_eq]
      left
      rw [show |(1050 : ℚ) / 100| = 1050 / 100 from abs_of_pos (by norm_num)]
      norm_num
    simp [merge_ai_extracted_data, mergeField, aiGet, toFloat, List.find?, hso]
  · have hso : shouldOverride (Option.some 100) (Option.some 300) false = false := by
      simp only [shouldOverride]
      rw [if_neg (by norm_num), if_pos (by norm_num : (100 : ℚ) ≠ 0 ∧ (300 : ℚ) ≠ 0),
        if_neg (by simp), decide_eq_false_iff_not]
      rw [show |(300 : ℚ) / 100| = 300 / 100 from abs_of_pos (by norm_num)]
      norm_num
    simp [merge_ai_extracted_data, mergeField, aiGet, toFloat, List.find?, hso]

/-- C3 (witness): the override rule applied at the claim's concrete inputs:
ratio 10.5 overrides, ratio 3 does not. -/
theorem reconciler_amount_override_spec_witness :
    shouldOverride (Option.some (100 : ℚ)) (Option.some 1050) false = true ∧
    shouldOverride (Option.some (100 : ℚ)) (Option.some 300) false ≠ true := by
  constructor
  · apply (reconciler_amount_override_spec.1 100 1050 (by norm_num) (by norm_num)).mpr
    left
    rw [show |(1050 : ℚ) / 100| = 1050 / 100 from abs_of_pos (by norm_num)]
    norm_num
  · intro h
    have h2 := (reconciler_amount_override_spec.1 100 300 (by norm_num) (by norm_num)).mp h
    rw [show |(300 : ℚ) / 100| = 300 / 100 from abs_of_pos (by norm_num)] at h2
    rcases h2 with h' | h' <;> norm_num at h'

/-- Membership in the persisted set: exactly the `metric_meta` entries whose
computed value passes `_is_reasonable`, carried over unmodified. -/
theorem mem_metricsToSave {computed : String → Option ℚ} {x : String × String × ℚ × String} :
    x ∈ metricsToSave computed ↔
      ∃ m ∈ metricMeta, is_reasonable m.1 (computed m.1) = true ∧
        x = (m.1, m.2.1, (computed m.1).getD 0, m.2.2) := by
  simp only [metricsToSave, List.mem_filterMap]
  constructor
  · rintro ⟨m, hm, hx⟩
    by_cases h : is_reasonable m.1 (computed m.1) = true
    · rw [if_pos h] at hx
      exact ⟨m, hm, h, (Option.some_inj.mp hx).symm⟩
    · rw [if_neg h] at hx; cases hx
  · rintro ⟨m, hm, h, rfl⟩
    exact ⟨m, hm, by rw [if_pos h]⟩

/-- A value accepted by `_is_reasonable` is necessarily present. -/
theorem is_reasonable_isSome {code : String} {x : Option ℚ}
    (h : is_reasonable code x = true) : ∃ w, x = Option.some w := by
  cases x with
  | none => simp [is_reasonable] at h
  | some w => exact ⟨w, rfl⟩

/-- C1 (counterexample): the claim says `DEBT_ASSET` is accepted only within
[-50, 100], but the filter accepts the value 150 — outside that range — and
the value is persisted unclamped. -/
theorem debt_asset_range_counterexample :
    is_reasonable "DEBT_ASSET" (Option.some 150) = true ∧
    metricsToSave (fun c => if c = "DEBT_ASSET" then Option.some 150 else Option.none) =
      [("DEBT_ASSET", "资产负债率", 150, "%")] ∧
    ¬((150 : ℚ) ≤ 100) :=
  ⟨by decide, by decide, by norm_num⟩

/-- C1 (amended): the plausibility filter accepts `GROSS_MARGIN` and
`NET_MARGIN` only within [-50, 100], `DEBT_ASSET` only within [-50, 200],
`ROE` and `ROA` only within [-200, 500], `CURRENT_RATIO` and `QUICK_RATIO`
only within [0, 50], the turnover metrics only within [0, 1000]; an absent
value is always rejected; and a `metric_meta` entry is in the persisted set
iff its computed value passes `_is_reasonable`, kept unclamped (everything
saved was computed, passed its check, and equals the computed value). -/
theorem plausibility_filter_spec :
    (∀ v : ℚ, is_reasonable "GROSS_MARGIN" (Option.some v) = true ↔ (-50 ≤ v ∧ v ≤ 100)) ∧
    (∀ v : ℚ, is_reasonable "NET_MARGIN" (Option.some v) = true ↔ (-50 ≤ v ∧ v ≤ 100)) ∧
    (∀ v : ℚ, is_reasonable "DEBT_ASSET" (Option.some v) = true ↔ (-50 ≤ v ∧ v ≤ 200)) ∧
    (∀ v : ℚ, is_reasonable "ROE" (Option.some v) = true ↔ (-200 ≤ v ∧ v ≤ 500)) ∧
    (∀ v : ℚ, is_reasonable "ROA" (Option.some v) = true ↔ (-200 ≤ v ∧ v ≤ 500)) ∧
    (∀ v : ℚ, is_reasonable "CURRENT_RATIO" (Option.some v) = true ↔ (0 ≤ v ∧ v ≤ 50)) ∧
    (∀ v : ℚ, is_reasonable "QUICK_RATIO" (Option.some v) = true ↔ (0 ≤ v ∧ v ≤ 50)) ∧
    (∀ v : ℚ, is_reasonable "ASSET_TURNOVER" (Option.some v) = true ↔ (0 ≤ v ∧ v ≤ 1000)) ∧
    (∀ v : ℚ, is_reasonable "INVENTORY_TURNOVER" (Option.some v) = true ↔ (0 ≤ v ∧ v ≤ 1000)) ∧
    (∀ v : ℚ, is_reasonable "RECEIVABLE_TURNOVER" (Option.some v) = true ↔ (0 ≤ v ∧ v ≤ 1000)) ∧
    (∀ code : String, is_reasonable code Option.none = false) ∧
    (∀ (computed : String → Option ℚ) (m : String × String × String), m ∈ metricMeta →
      ((m.1, m.2.1, (computed m.1).getD 0, m.2.2) ∈ metricsToSave computed ↔
        is_reasonable m.1 (computed m.1) = true)) ∧
    (∀ (computed : String → Option ℚ) (c n : String) (v : ℚ) (u : String),
      (c, n, v, u) ∈ metricsToSave computed →
        computed c = Option.some v ∧ is_reasonable c (Option.some v) = true) := by
  refine ⟨fun v => by simp [is_reasonable, isPctCode],
    fun v => by simp [is_reasonable, isPctCode],
    fun v => by simp [is_reasonable, isPctCode],
    fun v => by simp [is_reasonable, isPctCode],
    fun v => by simp [is_reasonable, isPctCode],
    fun v => by simp [is_reasonable, isPctCode],
    fun v => by simp [is_reasonable, isPctCode],
    fun v => by simp [is_reasonable, isPctCode],
    fun v => by simp [is_reasonable, isPctCode],
    fun v => by simp [is_reasonable, isPctCode],
    fun _ => rfl, ?_, ?_⟩
  · intro computed m hm
    constructor
    · intro hmem
      obtain ⟨m', _, h', heq⟩ := mem_metricsToSave.mp hmem
      simp only [Prod.mk.injEq] at heq
      rw [heq.1]
      exact h'
    · intro h
      exact mem_metricsToSave.mpr ⟨m, hm, h, rfl⟩
  · intro computed c n v u hmem
    obtain ⟨m, _, h', heq⟩ := mem_metricsToSave.mp hmem
    simp only [Prod.mk.injEq] at heq
    obtain ⟨hc, _, hv, _⟩ := heq
    obtain ⟨w, hw⟩ := is_reasonable_isSome h'
    subst hc
    rw [hw] at hv ⊢
    simp only [Option.getD_some] at hv
    subst hv
    exact ⟨rfl, by rw [← hw]; exact h'⟩

/-- C1 (witness): the save-iff part applied at a concrete computed map that
assigns 50 everywhere: the `GROSS_MARGIN` entry is persisted. -/
theorem plausibility_filter_spec_witness :
    ("GROSS_MARGIN", "毛利率", ((fun _ : String => Option.some (50 : ℚ)) "GROSS_MARGIN").getD 0,
      "%") ∈ metricsToSave (fun _ => Option.some 50) := by
  obtain ⟨-, -, -, -, -, -, -, -, -, -, -, h12, -⟩ := plausibility_filter_spec
  exact (h12 (fun _ => Option.some 50) ("GROSS_MARGIN", "毛利率", "%") (by decide)).mpr (by decide)

/-- C8 (counterexample): the claim asserts the quick-ratio formula whenever
`current_assets` and `current_liabilities` are present and
`current_liabilities` is non-zero; with `current_liabilities = -200`
(present, non-zero) the code emits no `QUICK_RATIO` at all (the guard
requires a strictly positive denominator), instead of the claimed
`(500 - 0) / (-200)`. -/
theorem quick_ratio_counterexample :
    ({ current_assets := Option.some 500, current_liabilities := Option.some (-200) } :
        EF).current_assets = Option.some 500 ∧
    ({ current_assets := Option.some 500, current_liabilities := Option.some (-200) } :
        EF).current_liabilities = Option.some (-200) ∧
    ((-200 : ℚ) ≠ 0) ∧
    compute_metrics_from_extracted
      { current_assets := Option.some 500, current_liabilities := Option.some (-200) }
      "QUICK_RATIO" = Option.none ∧
    compute_metrics_from_extracted
      { current_assets := Option.some 500, current_liabilities := Option.some (-200) }
      "QUICK_RATIO" ≠ Option.some ((500 - 0) / (-200)) := by
  refine ⟨rfl, rfl, by norm_num, ?_, ?_⟩
  · rw [cmfe_quick_ratio, computeQuickRatio, if_neg]
    simp [truthy, val]
  · rw [cmfe_quick_ratio, computeQuickRatio, if_neg]
    · simp
    · simp [truthy, val]

/-- C8 (amended): for every `ExtractedFinancials` with `current_assets`
present and non-zero and `current_liabilities` present and strictly
positive, `QUICK_RATIO = (current_assets − (inventory or 0)) /
current_liabilities`, where a null (or zero) inventory contributes 0 rather
than null-propagating; in particular 500 / 200 / null inventory gives 5/2. -/
theorem quick_ratio_spec :
    (∀ (d : EF) (ca cl : ℚ), d.current_assets = Option.some ca → ca ≠ 0 →
      d.current_liabilities = Option.some cl → 0 < cl →
      compute_metrics_from_extracted d "QUICK_RATIO" =
        Option.some ((ca - d.inventory.getD 0) / cl)) ∧
    compute_metrics_from_extracted
      { current_assets := Option.some 500, current_liabilities := Option.some 200 }
      "QUICK_RATIO" = Option.some (5 / 2) := by
  constructor
  · intro d ca cl hca hane hcl hclpos
    have hval : (if truthy d.inventory then val d.inventory else 0) = d.inventory.getD 0 := by
      cases hi : d.inventory with
      | none => simp [truthy, val]
      | some i =>
        by_cases hiz : i = 0
        · simp [truthy, val, hiz]
        · simp [truthy, val, hiz]
    rw [cmfe_quick_ratio, computeQuickRatio,
      if_pos (by simp [truthy, val, hca, hcl, hane, hclpos, ne_of_gt hclpos])]
    rw [hval, show val d.current_assets = ca by rw [hca]; rfl,
      show val d.current_liabilities = cl by rw [hcl]; rfl]
  · rw [cmfe_quick_ratio, computeQuickRatio, if_pos (by norm_num [truthy, val])]
    norm_num [truthy, val]

/-- C8 (witness): the amended formula applied at the claim's concrete input
`current_assets = 500`, `current_liabilities = 200`, inventory absent. -/
theorem quick_ratio_spec_witness :
    compute_metrics_from_extracted
      { current_assets := Option.some 500, current_liabilities := Option.some 200 }
      "QUICK_RATIO" =
      Option.some (((500 : ℚ) - (Option.none : Option ℚ).getD 0) / 200) :=
  quick_ratio_spec.1 _ 500 200 rfl (by norm_num) rfl (by norm_num)

/-- C4: the metric computation is a total function into finite rationals (so
it cannot raise or yield an infinity — every division sits under a guard
requiring a truthy, positive denominator), and null propagates: whenever the
directly extracted value is not truthy and the denominator raw field is null
or exactly zero — or a required numerator raw field is null — the metric is
absent (`none`), never zero. -/
theorem metric_null_propagation :
    ∀ d : EF,
    (truthy d.gross_margin_direct = false →
      (d.revenue = Option.none ∨ d.revenue = Option.some 0 ∨
        (d.gross_profit = Option.none ∧ d.cost = Option.none)) →
      compute_metrics_from_extracted d "GROSS_MARGIN" = Option.none) ∧
    (truthy d.net_margin_direct = false →
      (d.revenue = Option.none ∨ d.revenue = Option.some 0 ∨ d.net_profit = Option.none) →
      compute_metrics_from_extracted d "NET_MARGIN" = Option.none) ∧
    (truthy d.roe_direct = false →
      (d.total_equity = Option.none ∨ d.total_equity = Option.some 0 ∨
        d.net_profit = Option.none) →
      compute_metrics_from_extracted d "ROE" = Option.none) ∧
    (truthy d.roa_direct = false →
      (d.total_assets = Option.none ∨ d.total_assets = Option.some 0 ∨
        d.net_profit = Option.none) →
      compute_metrics_from_extracted d "ROA" = Option.none) ∧
    (truthy d.debt_ratio_direct = false →
      (d.total_assets = Option.none ∨ d.total_assets = Option.some 0 ∨
        d.total_liabilities = Option.none) →
      compute_metrics_from_extracted d "DEBT_ASSET" = Option.none) ∧
    (truthy d.current_ratio_direct = false →
      (d.current_liabilities = Option.none ∨ d.current_liabilities = Option.some 0 ∨
        d.current_assets = Option.none) →
      compute_metrics_from_extracted d "CURRENT_RATIO" = Option.none) ∧
    ((d.current_liabilities = Option.none ∨ d.current_liabilities = Option.some 0 ∨
        d.current_assets = Option.none) →
      compute_metrics_from_extracted d "QUICK_RATIO" = Option.none) ∧
    ((d.total_equity = Option.none ∨ d.total_equity = Option.some 0 ∨
        d.total_liabilities = Option.none) →
      compute_metrics_from_extracted d "EQUITY_RATIO" = Option.none) ∧
    ((d.inventory = Option.none ∨ d.inventory = Option.some 0 ∨ d.cost = Option.none) →
      compute_metrics_from_extracted d "INVENTORY_TURNOVER" = Option.none) ∧
    ((d.receivables = Option.none ∨ d.receivables = Option.some 0 ∨
        d.revenue = Option.none) →
      compute_metrics_from_extracted d "RECEIVABLE_TURNOVER" = Option.none) ∧
    ((d.total_assets = Option.none ∨ d.total_assets = Option.some 0 ∨
        d.revenue = Option.none) →
      compute_metrics_from_extracted d "ASSET_TURNOVER" = Option.none) := by
  intro d
  refine ⟨?_, ?_, ?_, ?_, ?_, ?_, ?_, ?_, ?_, ?_, ?_⟩
  · intro hdir hcase
    rw [cmfe_gross_margin, computeGrossMargin, if_neg (by simp [hdir])]
    rcases hcase with h | h | ⟨h1, h2⟩
    · rw [if_neg (by simp [truthy, h]), if_neg (by simp [truthy, h])]
    · rw [if_neg (by simp [truthy, h]), if_neg (by simp [truthy, h])]
    · rw [if_neg (by simp [truthy, h1]), if_neg (by simp [truthy, h2])]
  · intro hdir hcase
    rw [cmfe_net_margin, computeNetMargin, if_neg (by simp [hdir])]
    rcases hcase with h | h | h <;> rw [if_neg (by simp [truthy, h])]
  · intro hdir hcase
    rw [cmfe_roe, computeRoe, if_neg (by simp [hdir])]
    rcases hcase with h | h | h <;> rw [if_neg (by simp [truthy, h])]
  · intro hdir hcase
    rw [cmfe_roa, computeRoa, if_neg (by simp [hdir])]
    rcases hcase with h | h | h <;> rw [if_neg (by simp [truthy, h])]
  · intro hdir hcase
    rw [cmfe_debt_asset, computeDebtAsset, if_neg (by simp [hdir])]
    rcases hcase with h | h | h <;> rw [if_neg (by simp [truthy, h])]
  · intro hdir hcase
    rw [cmfe_current_ratio, computeCurrentRatio, if_neg (by simp [hdir])]
    rcases hcase with h | h | h <;> rw [if_neg (by simp [truthy, h])]
  · intro hcase
    rw [cmfe_quick_ratio, computeQuickRatio]
    rcases hcase with h | h | h <;> rw [if_neg (by simp [truthy, h])]
  · intro hcase
    rw [cmfe_equity_ratio, computeEquityRatio]
    rcases hcase with h | h | h <;> rw [if_neg (by simp [truthy, h])]
  · intro hcase
    rw [cmfe_inventory_turnover, computeInventoryTurnover]
    rcases hcase with h | h | h <;> rw [if_neg (by simp [truthy, h])]
  · intro hcase
    rw [cmfe_receivable_turnover, computeReceivableTurnover]
    rcases hcase with h | h | h <;> rw [if_neg (by simp [truthy, h])]
  · intro hcase
    rw [cmfe_asset_turnover, computeAssetTurnover]
    rcases hcase with h | h | h <;> rw [if_neg (by simp [truthy, h])]

/-- C4 (witness): on an all-null input every listed metric is absent — shown
here for `NET_MARGIN` by applying the null-propagation theorem. -/
theorem metric_null_propagation_witness :
    compute_metrics_from_extracted {} "NET_MARGIN" = Option.none :=
  (metric_null_propagation {}).2.1 rfl (Or.inl rfl)

/-- Chronological order on date candidates, as the claim states it: by year,
then month, then day. -/
def chronLe (a b : DateT) : Prop :=
  a.1 < b.1 ∨ (a.1 = b.1 ∧ (a.2.1 < b.2.1 ∨ (a.2.1 = b.2.1 ∧ a.2.2 ≤ b.2.2)))

theorem chronLe_refl (a : DateT) : chronLe a a :=
  Or.inr ⟨rfl, Or.inr ⟨rfl, le_refl _⟩⟩

theorem chronLe_of_dateLt {a b : DateT} (h : dateLt a b = true) : chronLe a b := by
  simp only [dateLt, Bool.or_eq_true, Bool.and_eq_true, decide_eq_true_eq] at h
  unfold chronLe
  omega

theorem chronLe_of_not_dateLt {a b : DateT} (h : dateLt a b = false) : chronLe b a := by
  simp only [dateLt, Bool.or_eq_false_iff, Bool.and_eq_false_iff, decide_eq_false_iff_not,
    decide_eq_true_eq] at h
  unfold chronLe
  rcases h with ⟨h1, h2⟩
  rcases h2 with h2 | h2 <;> omega

theorem chronLe_trans {a b c : DateT} (h1 : chronLe a b) (h2 : chronLe b c) : chronLe a c := by
  unfold chronLe at h1 h2 ⊢
  omega

theorem dateMax_mem (a b : DateT) : dateMax a b = a ∨ dateMax a b = b := by
  unfold dateMax
  split <;> simp

theorem chronLe_dateMax_left (a b : DateT) : chronLe a (dateMax a b) := by
  unfold dateMax
  cases h : dateLt a b with
  | true => simp only [if_pos]; exact chronLe_of_dateLt h
  | false => simp only [Bool.false_eq_true, if_neg, if_false]; exact chronLe_refl a

theorem chronLe_dateMax_right (a b : DateT) : chronLe b (dateMax a b) := by
  unfold dateMax
  cases h : dateLt a b with
  | true => simp only [if_pos]; exact chronLe_refl b
  | false => simp only [Bool.false_eq_true, if_neg, if_false]; exact chronLe_of_not_dateLt h

/-- Python `max` as a left fold: the result is an element of the scanned
collection and an upper bound for it. -/
theorem foldl_dateMax_spec (l : List DateT) (c : DateT) :
    (l.foldl dateMax c = c ∨ l.foldl dateMax c ∈ l) ∧
    chronLe c (l.foldl dateMax c) ∧
    ∀ x ∈ l, chronLe x (l.foldl dateMax c) := by
  induction l generalizing c with
  | nil => exact ⟨Or.inl rfl, chronLe_refl c, by simp⟩
  | cons y ys ih =>
    obtain ⟨hmem, hle, hall⟩ := ih (dateMax c y)
    rw [List.foldl_cons]
    refine ⟨?_, chronLe_trans (chronLe_dateMax_left c y) hle, ?_⟩
    · rcases hmem with h | h
      · rcases dateMax_mem c y with h2 | h2
        · exact Or.inl (h.trans h2)
        · exact Or.inr (by rw [h, h2]; exact List.mem_cons_self y ys)
      · exact Or.inr (List.mem_cons_of_mem y h)
    · intro x hx
      rcases List.mem_cons.mp hx with rfl | hx
      · exact chronLe_trans (chronLe_dateMax_right c x) hle
      · exact hall x hx

/-- C5: `_add_date` keeps exactly the candidates with year > 1900, month in
1–12, day in 1–31; the selected reporting period is a collected candidate
that is chronologically maximal (year, then month, then day); no valid
candidate leaves the period null; and the candidate set
{(2023,12,31), (2024,3,31), (2022,6,30)} formats to "2024-03-31". -/
theorem report_period_selection_spec :
    (∀ (acc : List DateT) (y m d : Nat),
      (1900 < y ∧ 1 ≤ m ∧ m ≤ 12 ∧ 1 ≤ d ∧ d ≤ 31 →
        addDate acc y m d = acc ++ [(y, m, d)]) ∧
      (¬(1900 < y ∧ 1 ≤ m ∧ m ≤ 12 ∧ 1 ≤ d ∧ d ≤ 31) → addDate acc y m d = acc)) ∧
    (∀ (cands : List DateT) (r : DateT), selectReportPeriod cands = Option.some r →
      r ∈ cands ∧ ∀ x ∈ cands, chronLe x r) ∧
    selectReportPeriod [] = Option.none ∧
    (selectReportPeriod (addDate (addDate (addDate [] 2023 12 31) 2024 3 31) 2022 6 30)).map
      formatDate = Option.some "2024-03-31" := by
  refine ⟨?_, ?_, rfl, by decide⟩
  · intro acc y m d
    constructor
    · intro h
      rw [addDate, if_neg (by omega)]
    · intro h
      rw [addDate, if_pos (by omega)]
  · intro cands r hsel
    cases cands with
    | nil => cases hsel
    | cons c rest =>
      simp only [selectReportPeriod, Option.some_inj] at hsel
      obtain ⟨hmem, hle, hall⟩ := foldl_dateMax_spec rest c
      subst hsel
      constructor
      · rcases hmem with h | h
        · rw [h]; exact List.mem_cons_self c rest
        · exact List.mem_cons_of_mem c h
      · intro x hx
        rcases List.mem_cons.mp hx with rfl | hx
        · exact hle
        · exact hall x hx

/-- C5 (witness): a valid candidate is appended, and the selection over the
concrete two-candidate list is the later candidate, by the theorem. -/
theorem report_period_selection_spec_witness :
    addDate [] 2024 3 31 = [] ++ [(2024, 3, 31)] ∧
    ((2024, 3, 31) : DateT) ∈ [((2023, 12, 31) : DateT), (2024, 3, 31)] := by
  constructor
  · exact (report_period_selection_spec.1 [] 2024 3 31).1 (by norm_num)
  · exact ((report_period_selection_spec.2.1 [(2023, 12, 31), (2024, 3, 31)]
      (2024, 3, 31)) (by decide)).1

set_option maxRecDepth 4000 in
/-- C7: any text with more than 10 `"(cid:"` markers is classified garbled;
any text longer than 100 characters whose readable-character ratio is below
1/2 is classified garbled; and 500 well-formed ASCII characters with no CID
markers are classified non-garbled. -/
theorem garbled_text_spec :
    (∀ t : List Char, 10 < countSubstr cidMarker t → isGarbledText t = true) ∧
    (∀ t : List Char, 100 < t.length →
      ((t.filter isReadable).length : ℚ) / t.length < 1 / 2 → isGarbledText t = true) ∧
    isGarbledText (List.replicate 500 'a') = false := by
  refine ⟨?_, ?_, ?_⟩
  · intro t h
    rw [isGarbledText]
    split_ifs <;> simp_all
  · intro t hlen hratio
    rw [isGarbledText]
    split_ifs <;> simp_all
  · have h1 : countSubstr cidMarker (List.replicate 500 'a') = 0 := by decide
    have h2 : (List.replicate 500 'a').filter isReadable = List.replicate 500 'a' := by decide
    have h3 : (List.replicate 500 'a').filter isCtrlChar = ([] : List Char) := by decide
    rw [isGarbledText]
    simp only [List.take_replicate, show min 5000 500 = 500 by norm_num, h1, h2, h3,
      List.length_replicate, List.length_nil]
    norm_num

/-- C7 (witness): a concrete string holding 11 CID markers is garbled, by the
threshold part of the theorem. -/
theorem garbled_text_spec_witness :
    isGarbledText (String.toList
      "(cid:1)(cid:1)(cid:1)(cid:1)(cid:1)(cid:1)(cid:1)(cid:1)(cid:1)(cid:1)(cid:1)") = true :=
  garbled_text_spec.1 _ (by decide)

/-- C9: in forced-AI mode the pipeline fails with the missing-credential
error when no API key is configured, and with the extraction-failed error
when the AI stage yields no parseable result (an empty dict, whether from an
empty completion or an empty parsed object); in best-effort mode every
AI-stage failure makes the extractor return an empty dict, the regex result
is returned unchanged, and the stage never raises to the caller. -/
theorem ai_stage_error_policy :
    (∀ (t : Bool) (o : AiCallOutcome) (base : PyEF),
      aiEnhance true t "" o base = Except.error PipelineError.missingCredential) ∧
    (∀ (t : Bool) (k : String) (base : PyEF), k ≠ "" →
      aiEnhance true t k (AiCallOutcome.response []) base =
        Except.error PipelineError.extractionEmpty ∧
      aiEnhance true t k AiCallOutcome.emptyText base =
        Except.error PipelineError.extractionEmpty) ∧
    (∀ (k : String) (o : AiCallOutcome), isFailureOutcome o = true →
      extract_financials_with_ai k o false = Except.ok []) ∧
    (∀ (t : Bool) (k : String) (o : AiCallOutcome) (base : PyEF), isFailureOutcome o = true →
      aiEnhance false t k o base = Except.ok base) ∧
    (∀ (t : Bool) (k : String) (o : AiCallOutcome) (base : PyEF),
      ∃ r, aiEnhance false t k o base = Except.ok r) := by
  refine ⟨?_, ?_, ?_, ?_, ?_⟩
  · intro t o base
    simp [aiEnhance]
  · intro t k base hk
    constructor <;> simp [aiEnhance, extract_financials_with_ai, hk]
  · intro k o ho
    by_cases hk : k = "" <;> cases o <;> simp_all [extract_financials_with_ai, isFailureOutcome]
  · intro t k o base ho
    by_cases hk : k = "" <;> cases t <;> cases o <;>
      simp_all [aiEnhance, extract_financials_with_ai, isFailureOutcome]
  · intro t k o base
    cases t with
    | false => exact ⟨base, rfl⟩
    | true =>
      by_cases hk : k = ""
      · exact ⟨base, by simp [aiEnhance, hk]⟩
      · cases o with
        | response d =>
          by_cases hd : d.isEmpty
          · exact ⟨base, by simp [aiEnhance, extract_financials_with_ai, hk, hd]⟩
          · exact ⟨merge_ai_extracted_data base d,
              by simp [aiEnhance, extract_financials_with_ai, hk, hd]⟩
        | emptyText => exact ⟨base, by simp [aiEnhance, extract_financials_with_ai, hk]⟩
        | httpError c => exact ⟨base, by simp [aiEnhance, extract_financials_with_ai, hk]⟩
        | jsonParseError => exact ⟨base, by simp [aiEnhance, extract_financials_with_ai, hk]⟩
        | otherError => exact ⟨base, by simp [aiEnhance, extract_financials_with_ai, hk]⟩

/-- C9 (witness): concrete runs of the stage: forced mode without a key
fails with the missing-credential error; forced mode with a key and an empty
completion fails with the extraction-failed error; best-effort mode swallows
a JSON parse failure and returns the base unchanged. -/
theorem ai_stage_error_policy_witness :
    aiEnhance true false "" AiCallOutcome.emptyText {} =
      Except.error PipelineError.missingCredential ∧
    aiEnhance true false "key" AiCallOutcome.emptyText {} =
      Except.error PipelineError.extractionEmpty ∧
    aiEnhance false true "key" AiCallOutcome.jsonParseError {} = Except.ok {} :=
  ⟨ai_stage_error_policy.1 false AiCallOutcome.emptyText {},
   (ai_stage_error_policy.2.1 false "key" {} (by decide)).2,
   ai_stage_error_policy.2.2.2.1 true "key" AiCallOutcome.jsonParseError {} rfl⟩

/-! Character-class helper lemmas for the float-parser proofs. -/

theorem isDigitChar_toNat {c : Char} (h : isDigitChar c = true) :
    48 ≤ c.toNat ∧ c.toNat ≤ 57 := by
  simpa [isDigitChar] using h

theorem isDigitChar_ne_of_toNat {c d : Char} (h : isDigitChar c = true)
    (hd : d.toNat < 48 ∨ 57 < d.toNat) : c ≠ d := by
  intro heq
  have h2 := isDigitChar_toNat h
  rw [heq] at h2
  omega

theorem isSpacePy_eq_false_of_digit {c : Char} (h : isDigitChar c = true) :
    isSpacePy c = false := by
  have h2 := isDigitChar_toNat h
  simp only [isSpacePy, Bool.or_eq_false_iff, Bool.and_eq_false_iff, decide_eq_false_iff_not]
  omega

theorem dropWhile_eq_self {p : Char → Bool} {cs : List Char} (h : ∀ c ∈ cs, p c = false) :
    cs.dropWhile p = cs := by
  cases cs with
  | nil => rfl
  | cons a l => rw [List.dropWhile_cons, if_neg]; simp [h a (List.mem_cons_self a l)]

theorem pyStrip_eq_self {cs : List Char} (h : ∀ c ∈ cs, isSpacePy c = false) :
    pyStrip cs = cs := by
  unfold pyStrip
  rw [dropWhile_eq_self h, dropWhile_eq_self (fun c hc => h c (List.mem_reverse.mp hc)),
    List.reverse_reverse]

/-- A hyphenated digit string `DDDD-DD-DD` is not a Python float literal:
the parse stops at the first interior hyphen and rejects the input. -/
theorem parseFloatPy_dashed {c1 c2 c3 c4 m1 m2 d1 d2 : Char}
    (h1 : isDigitChar c1 = true) (h2 : isDigitChar c2 = true)
    (h3 : isDigitChar c3 = true) (h4 : isDigitChar c4 = true) :
    parseFloatPy [c1, c2, c3, c4, '-', m1, m2, '-', d1, d2] = Option.none := by
  have hne1 : c1 ≠ '-' := isDigitChar_ne_of_toNat h1 (by decide)
  have hne1p : c1 ≠ '+' := isDigitChar_ne_of_toNat h1 (by decide)
  simp [parseFloatPy, h1, h2, h3, h4, hne1, hne1p,
    show isDigitChar '-' = false from by decide,
    show ('-' : Char) ≠ '.' from by decide,
    show ('-' : Char) ≠ 'e' from by decide,
    show ('-' : Char) ≠ 'E' from by decide]

/-- `_to_float` coerces a `YYYY-MM-DD` date string to `None`: it is not a
sentinel string, and `float(...)` fails on it. -/
theorem toFloat_dashed {c1 c2 c3 c4 m1 m2 d1 d2 : Char}
    (h1 : isDigitChar c1 = true) (h2 : isDigitChar c2 = true)
    (h3 : isDigitChar c3 = true) (h4 : isDigitChar c4 = true)
    (h5 : isDigitChar m1 = true) (h6 : isDigitChar m2 = true)
    (h7 : isDigitChar d1 = true) (h8 : isDigitChar d2 = true) :
    toFloat (PyVal.str (String.mk [c1, c2, c3, c4, '-', m1, m2, '-', d1, d2])) =
      Option.none := by
  have hmem : ∀ c ∈ [c1, c2, c3, c4, '-', m1, m2, '-', d1, d2], isSpacePy c = false := by
    intro c hc
    simp only [List.mem_cons, List.not_mem_nil, or_false] at hc
    rcases hc with rfl | rfl | rfl | rfl | rfl | rfl | rfl | rfl | rfl | rfl
    · exact isSpacePy_eq_false_of_digit h1
    · exact isSpacePy_eq_false_of_digit h2
    · exact isSpacePy_eq_false_of_digit h3
    · exact isSpacePy_eq_false_of_digit h4
    · decide
    · exact isSpacePy_eq_false_of_digit h5
    · exact isSpacePy_eq_false_of_digit h6
    · decide
    · exact isSpacePy_eq_false_of_digit h7
    · exact isSpacePy_eq_false_of_digit h8
  have hstrip := pyStrip_eq_self hmem
  have e0 : ("".toList : List Char) = [] := by decide
  have e1 : ("null".toList) = ['n', 'u', 'l', 'l'] := by decide
  have e2 : ("None".toList) = ['N', 'o', 'n', 'e'] := by decide
  have e3 : ("nan".toList) = ['n', 'a', 'n'] := by decide
  have e4 : ("NaN".toList) = ['N', 'a', 'N'] := by decide
  have e5 : ("--".toList) = ['-', '-'] := by decide
  simp only [toFloat]
  rw [show (String.mk [c1, c2, c3, c4, '-', m1, m2, '-', d1, d2]).toList =
    [c1, c2, c3, c4, '-', m1, m2, '-', d1, d2] from rfl, hstrip]
  rw [if_neg]
  · exact parseFloatPy_dashed h1 h2 h3 h4
  · rintro (h | h | h | h | h | h) <;> simp_all [e0, e1, e2, e3, e4, e5]

/-- C10: when the AI dict maps `"report_period"` to a `YYYY-MM-DD` date
string, the merge leaves `report_period` unchanged on every base struct:
the AI value is coerced through `_to_float`, the hyphenated string fails the
float coercion and counts as absent, and an absent AI value never
overrides. -/
theorem merge_keeps_report_period_on_date_string (base : PyEF) (d : AiDict)
    (c1 c2 c3 c4 m1 m2 d1 d2 : Char)
    (h1 : isDigitChar c1 = true) (h2 : isDigitChar c2 = true)
    (h3 : isDigitChar c3 = true) (h4 : isDigitChar c4 = true)
    (h5 : isDigitChar m1 = true) (h6 : isDigitChar m2 = true)
    (h7 : isDigitChar d1 = true) (h8 : isDigitChar d2 = true)
    (hget : aiGet d "report_period" =
      PyVal.str (String.mk [c1, c2, c3, c4, '-', m1, m2, '-', d1, d2])) :
    (merge_ai_extracted_data base d).report_period = base.report_period := by
  have hnone := toFloat_dashed h1 h2 h3 h4 h5 h6 h7 h8
  simp [merge_ai_extracted_data, mergeField, hget, hnone]

/-- C10 (witness): with an empty base and an AI dict carrying
`report_period = "2024-03-31"`, the merged `report_period` equals the base's. -/
theorem merge_keeps_report_period_on_date_string_witness :
    (merge_ai_extracted_data {} [("report_period", PyVal.str "2024-03-31")]).report_period =
      ({} : PyEF).report_period :=
  merge_keeps_report_period_on_date_string {} _ '2' '0' '2' '4' '0' '3' '3' '1'
    (by decide) (by decide) (by decide) (by decide) (by decide) (by decide) (by decide)
    (by decide) (by decide)

end FinExpert
